import Mathlib

/-!
Shallow embedding of the appointment scheduling core of the repository:
`turno_generator.py` (slot generation, availability, booking validation),
`models_admin.py` (weekly windows, specialist configuration, blocks) and the
booking route `nuevo_turno` of `app.py`.

Times of day are minutes from midnight (`Nat`); dates are day indices
(`Nat`) with weekday `fecha % 7`.  Database tables are lists kept in
insertion order; SQLAlchemy `filter(...).all()` becomes `List.filter`,
`filter(...).first()` becomes `List.find?` / `head?` of the filtered list.
-/

/-- Appointment states (`EstadoTurno` in `models.py`). -/
inductive EstadoTurno where
  | PENDIENTE
  | CONFIRMADO
  | REALIZADO
  | CANCELADO
deriving DecidableEq, Repr

/-- A row of `turnos` (`Turno` in `models.py`); fields not used by the core
(motivo_consulta, familiar, pago, …) are omitted. -/
structure Turno where
  id : Nat
  paciente_id : Nat
  especialista_id : Nat
  especialidad_id : Nat
  fecha : Nat
  hora : Nat
  estado : EstadoTurno
deriving DecidableEq, Repr

/-- A row of `horarios_atencion` (`HorarioAtencion` in `models_admin.py`). -/
structure Horario where
  especialista_id : Nat
  especialidad_id : Nat
  dia_semana : Nat
  hora_inicio : Nat
  hora_fin : Nat
  duracion_turno_custom : Option Nat
  activo : Bool
deriving DecidableEq, Repr

/-- A row of `configuracion_especialista` (`ConfiguracionEspecialista`). -/
structure Config where
  especialista_id : Nat
  duracion_turno_minutos : Nat
  pacientes_maximos_dia : Nat
  tiempo_buffer_minutos : Nat
  permite_sobreturnos : Bool
  sobreturnos_maximos : Nat
deriving DecidableEq, Repr

/-- A row of `bloqueos_horario` (`BloqueoHorario`): `hora_inicio = none`
means a full-day block in the source (`NULL = todo el día`). -/
structure Bloqueo where
  especialista_id : Nat
  fecha_inicio : Nat
  fecha_fin : Nat
  hora_inicio : Option Nat
  hora_fin : Option Nat
  motivo : String
  activo : Bool
deriving DecidableEq, Repr

/-- The database state: the four tables the scheduling core reads. -/
structure DB where
  horarios : List Horario
  configs : List Config
  bloqueos : List Bloqueo
  turnos : List Turno
deriving DecidableEq, Repr

/-- `HorarioAtencion.query.filter(especialista, especialidad, dia_semana, activo).all()`. -/
def horariosQuery (db : DB) (esp espd dia : Nat) : List Horario :=
  db.horarios.filter fun h =>
    h.especialista_id == esp && h.especialidad_id == espd &&
    h.dia_semana == dia && h.activo

/-- `BloqueoHorario.query.filter(especialista, fecha_inicio <= fecha <= fecha_fin, activo).all()`. -/
def bloqueosQuery (db : DB) (esp fecha : Nat) : List Bloqueo :=
  db.bloqueos.filter fun bl =>
    bl.especialista_id == esp && decide (bl.fecha_inicio ≤ fecha) &&
    decide (fecha ≤ bl.fecha_fin) && bl.activo

/-- `ConfiguracionEspecialista.query.filter_by(especialista_id).first()`. -/
def configQuery (db : DB) (esp : Nat) : Option Config :=
  db.configs.find? fun c => c.especialista_id == esp

/-- `estado.in_([EstadoTurno.PENDIENTE, EstadoTurno.CONFIRMADO])`: the states
that occupy a slot and count toward capacity. -/
def esOcupante : EstadoTurno → Bool
  | EstadoTurno.PENDIENTE => true
  | EstadoTurno.CONFIRMADO => true
  | _ => false

/-- `Turno.query.filter(especialista, fecha, estado in occupying).count()` —
the daily occupancy count, taken across all specialties. -/
def contarTurnosDia (db : DB) (esp fecha : Nat) : Nat :=
  (db.turnos.filter fun t =>
    t.especialista_id == esp && t.fecha == fecha && esOcupante t.estado).length

/-- `Turno.query.filter(especialista, fecha, hora, estado in occupying).first()`. -/
def turnoExistenteAt (db : DB) (esp fecha hora : Nat) : Option Turno :=
  db.turnos.find? fun t =>
    t.especialista_id == esp && t.fecha == fecha && t.hora == hora &&
    esOcupante t.estado

/-- Number of occupying turnos at exactly (especialista, fecha, hora). -/
def contarOcupantesEnSlot (db : DB) (esp fecha hora : Nat) : Nat :=
  (db.turnos.filter fun t =>
    t.especialista_id == esp && t.fecha == fecha && t.hora == hora &&
    esOcupante t.estado).length

/-- Effective slot duration of a window (`generar_slots`, models_admin.py
lines 134-141): the per-window override when Python-truthy (set and
nonzero), else the config's duration, else 30. -/
def effDuracion (db : DB) (h : Horario) : Nat :=
  match h.duracion_turno_custom with
  | some n =>
    if n = 0 then
      match configQuery db h.especialista_id with
      | some config => config.duracion_turno_minutos
      | none => 30
    else n
  | none =>
    match configQuery db h.especialista_id with
    | some config => config.duracion_turno_minutos
    | none => 30

/-- Effective buffer (`generar_slots`, models_admin.py lines 156-161):
`config.tiempo_buffer_minutos if config else 0`. -/
def effBuffer (db : DB) (esp : Nat) : Nat :=
  match configQuery db esp with
  | some config => config.tiempo_buffer_minutos
  | none => 0

/-- The `while hora_actual < hora_limite` loop of `generar_slots`, with an
explicit fuel bound on the number of iterations.  Each iteration emits the
slot `[cursor, cursor + d)` when it fits inside `limite` and advances the
cursor by `d + b`. -/
def genLoop (limite d b : Nat) : Nat → Nat → List (Nat × Nat)
  | _, 0 => []
  | cursor, fuel + 1 =>
    if cursor < limite then
      if cursor + d ≤ limite then
        (cursor, cursor + d) :: genLoop limite d b (cursor + d + b) fuel
      else
        genLoop limite d b (cursor + d + b) fuel
    else
      []

/-- `HorarioAtencion.generar_slots`: expand a window into candidate slots.
`hora_fin + 1` fuel suffices for every positive effective duration, since
the cursor strictly increases each iteration. -/
def generarSlots (db : DB) (h : Horario) : List (Nat × Nat) :=
  genLoop h.hora_fin (effDuracion db h) (effBuffer db h.especialista_id)
    h.hora_inicio (h.hora_fin + 1)

/-- Number of slots the loop emits from start `s` to limit `e` with
duration `d` and buffer `b` (closed form used to state C4). -/
def genCount (s e d b : Nat) : Nat :=
  if s + d ≤ e then (e - (s + d)) / (d + b) + 1 else 0

/-- One entry of the list returned by `obtener_slots_disponibles`. -/
structure SlotInfo where
  hora_inicio : Nat
  hora_fin : Nat
  disponible : Bool
  turno_id : Option Nat
deriving DecidableEq, Repr

/-- The inner `for bloqueo in bloqueos` loop of `obtener_slots_disponibles`
(lines 75-85): a candidate is blocked when some fetched block either has
both bounds set and contains the start, or lacks a bound (treated as a
full-day block). -/
def slotBloqueado (bloqueos : List Bloqueo) (horaIni : Nat) : Bool :=
  bloqueos.any fun bl =>
    match bl.hora_inicio, bl.hora_fin with
    | some bi, some bf => decide (bi ≤ horaIni) && decide (horaIni < bf)
    | _, _ => true

/-- Building of one output entry (lines 88-101): the occupancy lookup at
the slot's start decides `disponible` and carries the turno id. -/
def construirSlot (db : DB) (esp fecha : Nat) (s : Nat × Nat) : SlotInfo :=
  let turnoExistente := turnoExistenteAt db esp fecha s.1
  { hora_inicio := s.1
    hora_fin := s.2
    disponible := turnoExistente.isNone
    turno_id := turnoExistente.map fun t => t.id }

/-- Per-window slot construction inside the `for horario in horarios` loop:
blocked candidates are dropped entirely, survivors get occupancy info. -/
def slotsDeHorario (db : DB) (esp fecha : Nat) (bloqueos : List Bloqueo)
    (horario : Horario) : List SlotInfo :=
  (generarSlots db horario).filterMap fun s =>
    if slotBloqueado bloqueos s.1 then none
    else some (construirSlot db esp fecha s)

/-- `GeneradorTurnos.obtener_slots_disponibles` (turno_generator.py 17-103). -/
def obtenerSlotsDisponibles (db : DB) (esp espd fecha : Nat) : List SlotInfo :=
  let horarios := horariosQuery db esp espd (fecha % 7)
  if horarios.isEmpty then []
  else
    let bloqueos := bloqueosQuery db esp fecha
    match configQuery db esp with
    | none => []
    | some config =>
      if decide (config.pacientes_maximos_dia ≤ contarTurnosDia db esp fecha)
          && !config.permite_sobreturnos then []
      else
        (horarios.map (slotsDeHorario db esp fecha bloqueos)).flatten

/-- The first window query of `validar_turno` (turno_generator.py 151-158):
an active window of the weekday whose range contains `hora`. -/
def findHorarioValidar (db : DB) (esp espd fecha hora : Nat) : Option Horario :=
  db.horarios.find? fun h =>
    h.especialista_id == esp && h.especialidad_id == espd &&
    h.dia_semana == fecha % 7 && decide (h.hora_inicio ≤ hora) &&
    decide (hora < h.hora_fin) && h.activo

/-- Step 4 of `validar_turno` (lines 188-204): the daily-capacity and
overflow check, skipped entirely when the specialist has no config row. -/
def validarCupo (db : DB) (esp fecha : Nat) : Bool × String :=
  match configQuery db esp with
  | none => (true, "Turno válido")
  | some config =>
    let turnosDelDia := contarTurnosDia db esp fecha
    if config.pacientes_maximos_dia ≤ turnosDelDia then
      if !config.permite_sobreturnos then
        (false, "Cupo máximo diario alcanzado")
      else if config.pacientes_maximos_dia + config.sobreturnos_maximos ≤ turnosDelDia then
        (false, "Cupo máximo de sobreturnos alcanzado")
      else
        (true, "Turno válido")
    else
      (true, "Turno válido")

/-- Step 3 of `validar_turno` (lines 177-186): reject when an occupying
turno already sits at exactly (especialista, fecha, hora), else fall
through to the capacity check. -/
def validarExistente (db : DB) (esp fecha hora : Nat) : Bool × String :=
  match turnoExistenteAt db esp fecha hora with
  | some _ => (false, "Ya existe un turno en ese horario")
  | none => validarCupo db esp fecha

/-- `GeneradorTurnos.validar_turno` (turno_generator.py 141-206).  The block
step uses `.first()` on the overlapping-blocks query and only inspects that
one block.  Result `none` models the `TypeError` the Python code raises
when the first block has `hora_inicio` set, `hora_fin` null and
`hora_inicio <= hora` (the chained comparison then evaluates
`hora < None`). -/
def validarTurno (db : DB) (esp espd fecha hora : Nat) : Option (Bool × String) :=
  match findHorarioValidar db esp espd fecha hora with
  | none => some (false, "El especialista no atiende en ese horario")
  | some _ =>
    match (bloqueosQuery db esp fecha).head? with
    | none => some (validarExistente db esp fecha hora)
    | some bloqueo =>
      match bloqueo.hora_inicio with
      | none => some (false, "Horario bloqueado: " ++ bloqueo.motivo)
      | some bi =>
        if bi ≤ hora then
          match bloqueo.hora_fin with
          | none => none
          | some bf =>
            if hora < bf then
              some (false, "Horario bloqueado: " ++ bloqueo.motivo)
            else
              some (validarExistente db esp fecha hora)
        else
          some (validarExistente db esp fecha hora)

/-- The data of one POST to `/turnos/nuevo` after parsing (app.py 517-533).
`prepaga` abstracts whether the patient has an active subscription with
remaining consultations (the route then commits the turno as CONFIRMADO
instead of PENDIENTE). -/
structure BookingReq where
  paciente : Nat
  especialista : Nat
  especialidad : Nat
  fecha : Nat
  hora : Nat
  prepaga : Bool
deriving DecidableEq, Repr

/-- The duplicate check of the booking route (app.py 535-541):
`Turno.query.filter_by(especialista, fecha, hora, estado=PENDIENTE).first()`.
Note it filters on PENDIENTE only, not on both occupying states. -/
def duplicadoPendiente (db : DB) (esp fecha hora : Nat) : Bool :=
  (db.turnos.find? fun t =>
    t.especialista_id == esp && t.fecha == fecha && t.hora == hora &&
    t.estado == EstadoTurno.PENDIENTE).isSome

/-- The insert the route commits (app.py 553-607): one new turno at the
requested slot, CONFIRMADO when a prepaga consultation is consumed,
PENDIENTE otherwise. -/
def insertarTurno (db : DB) (r : BookingReq) : DB :=
  { db with
    turnos := db.turnos ++
      [{ id := db.turnos.length
         paciente_id := r.paciente
         especialista_id := r.especialista
         especialidad_id := r.especialidad
         fecha := r.fecha
         hora := r.hora
         estado := if r.prepaga then EstadoTurno.CONFIRMADO
                   else EstadoTurno.PENDIENTE }] }

/-- The POST branch of `nuevo_turno` (app.py 514-614) as one sequential
read-then-write: reject when the PENDIENTE-only duplicate check fires,
otherwise insert.  The route never calls `validar_turno`. -/
def nuevoTurno (db : DB) (r : BookingReq) : DB × Bool :=
  if duplicadoPendiente db r.especialista r.fecha r.hora then (db, false)
  else (insertarTurno db r, true)

/-- Progress of one in-flight booking request: before its duplicate-check
read, after the read (with its outcome), and finished. -/
inductive ReqPhase where
  | start
  | checked (ok : Bool)
  | done (created : Bool)
deriving DecidableEq, Repr

/-- Shared database plus the phases of two concurrent booking requests. -/
structure RaceState where
  db : DB
  p1 : ReqPhase
  p2 : ReqPhase

/-- Interleaving semantics of two concurrent executions of the
`nuevo_turno` route against the shared ledger: each SQL statement (the
duplicate-check SELECT, the INSERT) is atomic, but the read and the write
of one request may be separated by steps of the other — exactly the
situation app.py permits, since it takes no lock and `turnos` has no
uniqueness constraint on (especialista, fecha, hora). -/
inductive RaceStep (r1 r2 : BookingReq) : RaceState → RaceState → Prop where
  | check1 (db : DB) (p2 : ReqPhase) :
      RaceStep r1 r2 ⟨db, ReqPhase.start, p2⟩
        ⟨db, ReqPhase.checked (!duplicadoPendiente db r1.especialista r1.fecha r1.hora), p2⟩
  | insert1 (db : DB) (p2 : ReqPhase) :
      RaceStep r1 r2 ⟨db, ReqPhase.checked true, p2⟩
        ⟨insertarTurno db r1, ReqPhase.done true, p2⟩
  | abort1 (db : DB) (p2 : ReqPhase) :
      RaceStep r1 r2 ⟨db, ReqPhase.checked false, p2⟩
        ⟨db, ReqPhase.done false, p2⟩
  | check2 (db : DB) (p1 : ReqPhase) :
      RaceStep r1 r2 ⟨db, p1, ReqPhase.start⟩
        ⟨db, p1, ReqPhase.checked (!duplicadoPendiente db r2.especialista r2.fecha r2.hora)⟩
  | insert2 (db : DB) (p1 : ReqPhase) :
      RaceStep r1 r2 ⟨db, p1, ReqPhase.checked true⟩
        ⟨insertarTurno db r2, p1, ReqPhase.done true⟩
  | abort2 (db : DB) (p1 : ReqPhase) :
      RaceStep r1 r2 ⟨db, p1, ReqPhase.checked false⟩
        ⟨db, p1, ReqPhase.done false⟩

/-! Concrete fixtures (times in minutes: 480 = 08:00, 540 = 09:00,
600 = 10:00, 660 = 11:00, 720 = 12:00; fecha 0 has weekday 0). -/

/-- Active window: especialista 1, especialidad 1, weekday 0, 08:00-12:00. -/
def hBase : Horario :=
  { especialista_id := 1, especialidad_id := 1, dia_semana := 0
    hora_inicio := 480, hora_fin := 720, duracion_turno_custom := none
    activo := true }

/-- Active window: especialista 1, especialidad 1, weekday 0, 08:00-10:00. -/
def h4 : Horario :=
  { especialista_id := 1, especialidad_id := 1, dia_semana := 0
    hora_inicio := 480, hora_fin := 600, duracion_turno_custom := none
    activo := true }

/-- Config: duration 30, max 20 per day, buffer 0, no sobreturnos. -/
def c4 : Config :=
  { especialista_id := 1, duracion_turno_minutos := 30
    pacientes_maximos_dia := 20, tiempo_buffer_minutos := 0
    permite_sobreturnos := false, sobreturnos_maximos := 0 }

/-- Same as `c4` with buffer 10. -/
def c4b : Config :=
  { especialista_id := 1, duracion_turno_minutos := 30
    pacientes_maximos_dia := 20, tiempo_buffer_minutos := 10
    permite_sobreturnos := false, sobreturnos_maximos := 0 }

/-- Config with daily cap 2 and no sobreturnos. -/
def c5 : Config :=
  { especialista_id := 1, duracion_turno_minutos := 30
    pacientes_maximos_dia := 2, tiempo_buffer_minutos := 0
    permite_sobreturnos := false, sobreturnos_maximos := 0 }

/-- An already CONFIRMADO turno of especialista 1 at fecha 0, 09:00. -/
def tConf : Turno :=
  { id := 0, paciente_id := 2, especialista_id := 1, especialidad_id := 1
    fecha := 0, hora := 540, estado := EstadoTurno.CONFIRMADO }

/-- Active timed block 10:00-11:00 (does not cover 09:00). -/
def blTimed : Bloqueo :=
  { especialista_id := 1, fecha_inicio := 0, fecha_fin := 0
    hora_inicio := some 600, hora_fin := some 660, motivo := "reunión"
    activo := true }

/-- Active full-day block (both time bounds null). -/
def blFull : Bloqueo :=
  { especialista_id := 1, fecha_inicio := 0, fecha_fin := 0
    hora_inicio := none, hora_fin := none, motivo := "vacaciones"
    activo := true }

/-- Active one-sided block: `hora_inicio` 12:00 set, `hora_fin` null. -/
def blHalf : Bloqueo :=
  { especialista_id := 1, fecha_inicio := 0, fecha_fin := 0
    hora_inicio := some 720, hora_fin := none, motivo := "tarde libre"
    activo := true }

/-- Ledger already holding a CONFIRMADO turno at the requested slot. -/
def dbC1 : DB := { horarios := [hBase], configs := [], bloqueos := [], turnos := [tConf] }

/-- Booking request for the very slot `tConf` occupies. -/
def reqC1 : BookingReq :=
  { paciente := 3, especialista := 1, especialidad := 1, fecha := 0
    hora := 540, prepaga := false }

/-- Empty ledger for the concurrency scenario. -/
def dbRace : DB := { horarios := [hBase], configs := [], bloqueos := [], turnos := [] }

/-- The booking request both racing clients submit. -/
def reqR : BookingReq :=
  { paciente := 6, especialista := 1, especialidad := 1, fecha := 0
    hora := 540, prepaga := false }

/-- Blocks list whose first element is a timed block not covering 09:00 and
whose second is a covering full-day block. -/
def db3 : DB := { horarios := [hBase], configs := [], bloqueos := [blTimed, blFull], turnos := [] }

/-- First (and only) overlapping block is full-day. -/
def db3w : DB := { horarios := [hBase], configs := [], bloqueos := [blFull], turnos := [] }

/-- Window 08:00-10:00, duration 30, buffer 0. -/
def db4 : DB := { horarios := [h4], configs := [c4], bloqueos := [], turnos := [] }

/-- Window 08:00-10:00, duration 30, buffer 10. -/
def db4b : DB := { horarios := [h4], configs := [c4b], bloqueos := [], turnos := [] }

/-- Cap 2 reached by two occupying turnos of other specialties, leaving
many unbooked, unblocked window slots. -/
def db5 : DB :=
  { horarios := [hBase], configs := [c5], bloqueos := []
    turnos :=
      [{ id := 0, paciente_id := 2, especialista_id := 1, especialidad_id := 2
         fecha := 0, hora := 480, estado := EstadoTurno.PENDIENTE },
       { id := 1, paciente_id := 4, especialista_id := 1, especialidad_id := 3
         fecha := 0, hora := 510, estado := EstadoTurno.CONFIRMADO }] }

/-- Window plus config plus a covering full-day block. -/
def db6 : DB := { horarios := [h4], configs := [c4], bloqueos := [blFull], turnos := [] }

/-- Windows, bookings and no config row at all. -/
def db7 : DB := { horarios := [hBase], configs := [], bloqueos := [], turnos := [tConf] }

/-- No config row, an active window, no blocks, three occupying turnos the
same day at other times (09:00 itself is free). -/
def db9 : DB :=
  { horarios := [hBase], configs := [], bloqueos := []
    turnos :=
      [{ id := 0, paciente_id := 2, especialista_id := 1, especialidad_id := 1
         fecha := 0, hora := 480, estado := EstadoTurno.PENDIENTE },
       { id := 1, paciente_id := 4, especialista_id := 1, especialidad_id := 1
         fecha := 0, hora := 510, estado := EstadoTurno.CONFIRMADO },
       { id := 2, paciente_id := 5, especialista_id := 1, especialidad_id := 1
         fecha := 0, hora := 600, estado := EstadoTurno.PENDIENTE }] }

/-- Window 08:00-10:00 with a one-sided block starting at 12:00: read as a
time range it would exclude nothing of the window. -/
def db10 : DB := { horarios := [h4], configs := [c4], bloqueos := [blHalf], turnos := [] }

/-! Helper lemmas shared by several claims. -/

/-- If the specialist has no config row, the availability query yields
nothing, whatever the other tables hold. -/
theorem obtener_nil_of_config_none (db : DB) (esp espd fecha : Nat)
    (hc : configQuery db esp = none) :
    obtenerSlotsDisponibles db esp espd fecha = [] := by
  simp [obtenerSlotsDisponibles, hc]

/-- Every slot returned by the availability query survived the block
filter: its start time is not covered by any fetched block. -/
theorem mem_obtener_not_bloqueado (db : DB) (esp espd fecha : Nat) (s : SlotInfo)
    (hs : s ∈ obtenerSlotsDisponibles db esp espd fecha) :
    slotBloqueado (bloqueosQuery db esp fecha) s.hora_inicio = false := by
  simp only [obtenerSlotsDisponibles] at hs
  split at hs
  · exact absurd hs (List.not_mem_nil s)
  · split at hs
    · exact absurd hs (List.not_mem_nil s)
    · split at hs
      · exact absurd hs (List.not_mem_nil s)
      · rw [List.mem_flatten] at hs
        obtain ⟨l, hl, hsl⟩ := hs
        rw [List.mem_map] at hl
        obtain ⟨horario, _, rfl⟩ := hl
        unfold slotsDeHorario at hsl
        rw [List.mem_filterMap] at hsl
        obtain ⟨p, _, hp⟩ := hsl
        by_cases hbl : slotBloqueado (bloqueosQuery db esp fecha) p.1 = true
        · rw [if_pos hbl] at hp
          cases hp
        · rw [if_neg hbl] at hp
          injection hp with hp
          subst hp
          simp only [Bool.not_eq_true] at hbl
          simpa [construirSlot] using hbl

/-! Claim theorems. -/

/-- C7: for a specialist with no SpecialistConfig record,
obtener_slots_disponibles returns the empty list for every specialty and
date, without failing, whatever windows, blocks or bookings exist. -/
theorem obtenerSlots_empty_of_no_config (db : DB) (esp espd fecha : Nat)
    (hc : configQuery db esp = none) :
    obtenerSlotsDisponibles db esp espd fecha = [] :=
  obtener_nil_of_config_none db esp espd fecha hc

/-- Witness for C7: a ledger with an active window and a booking but no
config row yields the empty slot list. -/
theorem obtenerSlots_empty_of_no_config_witness :
    configQuery db7 1 = none ∧ obtenerSlotsDisponibles db7 1 1 0 = [] :=
  ⟨rfl, obtenerSlots_empty_of_no_config db7 1 1 0 rfl⟩

/-- C5: when the occupying count of the specialist's day (across all
specialties) has reached the daily cap and the config disallows
sobreturnos, obtener_slots_disponibles returns the empty list. -/
theorem obtenerSlots_empty_of_capacity (db : DB) (esp espd fecha : Nat)
    (c : Config) (hc : configQuery db esp = some c)
    (hov : c.permite_sobreturnos = false)
    (hcap : c.pacientes_maximos_dia ≤ contarTurnosDia db esp fecha) :
    obtenerSlotsDisponibles db esp espd fecha = [] := by
  simp [obtenerSlotsDisponibles, hc, hov, hcap]

/-- Witness for C5: cap 2 reached by two occupying turnos of other
specialties, while the 08:00-12:00 window has free, unblocked slots. -/
theorem obtenerSlots_empty_of_capacity_witness :
    configQuery db5 1 = some c5 ∧ c5.permite_sobreturnos = false ∧
    c5.pacientes_maximos_dia ≤ contarTurnosDia db5 1 0 ∧
    obtenerSlotsDisponibles db5 1 1 0 = [] :=
  ⟨rfl, rfl, by decide,
    obtenerSlots_empty_of_capacity db5 1 1 0 c5 rfl rfl (by decide)⟩

/-- C9: with no SpecialistConfig row, validar_turno skips the capacity
check and accepts a time inside an active window with no block and no
conflicting booking, no matter how many occupying turnos the day already
holds, while obtener_slots_disponibles returns the empty list for the same
specialist and date. -/
theorem validarTurno_no_config_accepts (db : DB) (esp espd fecha hora : Nat)
    (hc : configQuery db esp = none)
    (hw : (findHorarioValidar db esp espd fecha hora).isSome = true)
    (hb : bloqueosQuery db esp fecha = [])
    (ht : turnoExistenteAt db esp fecha hora = none) :
    validarTurno db esp espd fecha hora = some (true, "Turno válido") ∧
    obtenerSlotsDisponibles db esp espd fecha = [] := by
  constructor
  · obtain ⟨h0, hh0⟩ := Option.isSome_iff_exists.mp hw
    unfold validarTurno
    rw [hh0, hb]
    simp [validarExistente, ht, validarCupo, hc]
  · exact obtener_nil_of_config_none db esp espd fecha hc

/-- Witness for C9: three occupying turnos already sit on the day, yet
09:00 validates while the availability list is empty. -/
theorem validarTurno_no_config_accepts_witness :
    validarTurno db9 1 1 0 540 = some (true, "Turno válido") ∧
    obtenerSlotsDisponibles db9 1 1 0 = [] :=
  validarTurno_no_config_accepts db9 1 1 0 540 rfl (by decide) rfl (by decide)

/-- C3 counterexample: the blocks list holds an active full-day block
covering the date (so the claim demands rejection), but the first block
the query returns is a timed one not containing 09:00, and validar_turno
accepts the slot. -/
theorem validarTurno_ignores_second_block :
    ((bloqueosQuery db3 1 0).any fun bl =>
      bl.hora_inicio.isNone && bl.hora_fin.isNone) = true ∧
    validarTurno db3 1 1 0 540 = some (true, "Turno válido") := by
  decide

/-- C3 amended: validar_turno inspects only the first overlapping active
block its query returns; it rejects with that block's reason exactly when
this first block is full-day (`hora_inicio` null) or its time range
contains the requested time. -/
theorem validarTurno_first_block_reject (db : DB) (esp espd fecha hora : Nat)
    (b : Bloqueo)
    (hw : (findHorarioValidar db esp espd fecha hora).isSome = true)
    (hb : (bloqueosQuery db esp fecha).head? = some b)
    (hcov : b.hora_inicio = none ∨
      ∃ bi bf, b.hora_inicio = some bi ∧ b.hora_fin = some bf ∧
        bi ≤ hora ∧ hora < bf) :
    validarTurno db esp espd fecha hora =
      some (false, "Horario bloqueado: " ++ b.motivo) := by
  obtain ⟨h0, hh0⟩ := Option.isSome_iff_exists.mp hw
  unfold validarTurno
  rw [hh0, hb]
  rcases hcov with hnone | ⟨bi, bf, hbi, hbf, h1, h2⟩
  · simp [hnone]
  · simp [hbi, hbf, h1, h2]

/-- Witness for the amended C3: the first overlapping block is full-day
and validar_turno rejects with its reason. -/
theorem validarTurno_first_block_reject_witness :
    validarTurno db3w 1 1 0 540 =
      some (false, "Horario bloqueado: vacaciones") :=
  (validarTurno_first_block_reject db3w 1 1 0 540 blFull (by decide) rfl
    (Or.inl rfl)).trans (by decide)

/-- C1 (code bug): with a CONFIRMADO turno occupying the slot,
validar_turno would reject with "slot already taken", but the booking
route `nuevo_turno` — which never calls the validator and filters its own
duplicate check on estado PENDIENTE only — inserts a second occupying
turno at the same (especialista, fecha, hora). -/
theorem nuevoTurno_inserts_over_confirmado :
    validarTurno dbC1 1 1 0 540 =
      some (false, "Ya existe un turno en ese horario") ∧
    (nuevoTurno dbC1 reqC1).2 = true ∧
    contarOcupantesEnSlot (nuevoTurno dbC1 reqC1).1 1 0 540 = 2 := by
  decide

/-- C2 (code bug): two concurrent executions of the `nuevo_turno` route
for the identical (especialista, fecha, hora) can interleave as
check-check-insert-insert, and both inserts commit: a state with two
occupying turnos at the slot is reachable, because the route takes no lock
and the `turnos` table has no uniqueness constraint on the slot. -/
theorem race_double_booking_reachable :
    ∃ dbf : DB,
      Relation.ReflTransGen (RaceStep reqR reqR)
        ⟨dbRace, ReqPhase.start, ReqPhase.start⟩
        ⟨dbf, ReqPhase.done true, ReqPhase.done true⟩ ∧
      contarOcupantesEnSlot dbf 1 0 540 = 2 := by
  refine ⟨insertarTurno (insertarTurno dbRace reqR) reqR, ?_, by decide⟩
  have s1 : RaceStep reqR reqR
      ⟨dbRace, ReqPhase.start, ReqPhase.start⟩
      ⟨dbRace, ReqPhase.checked true, ReqPhase.start⟩ :=
    RaceStep.check1 dbRace ReqPhase.start
  have s2 : RaceStep reqR reqR
      ⟨dbRace, ReqPhase.checked true, ReqPhase.start⟩
      ⟨dbRace, ReqPhase.checked true, ReqPhase.checked true⟩ :=
    RaceStep.check2 dbRace (ReqPhase.checked true)
  have s3 : RaceStep reqR reqR
      ⟨dbRace, ReqPhase.checked true, ReqPhase.checked true⟩
      ⟨insertarTurno dbRace reqR, ReqPhase.done true, ReqPhase.checked true⟩ :=
    RaceStep.insert1 dbRace (ReqPhase.checked true)
  have s4 : RaceStep reqR reqR
      ⟨insertarTurno dbRace reqR, ReqPhase.done true, ReqPhase.checked true⟩
      ⟨insertarTurno (insertarTurno dbRace reqR) reqR,
        ReqPhase.done true, ReqPhase.done true⟩ :=
    RaceStep.insert2 (insertarTurno dbRace reqR) (ReqPhase.done true)
  exact Relation.ReflTransGen.head s1 (Relation.ReflTransGen.head s2
    (Relation.ReflTransGen.head s3 (Relation.ReflTransGen.single s4)))

/-- C6: a fetched active block that is full-day (no time range) or whose
time range contains a candidate start time removes every such candidate
from the availability output entirely (it is never returned, not even as
unavailable); consequently a full-day block empties the output. -/
theorem obtenerSlots_drops_blocked (db : DB) (esp espd fecha t : Nat)
    (b : Bloqueo) (hb : b ∈ bloqueosQuery db esp fecha)
    (hcov : (b.hora_inicio = none ∧ b.hora_fin = none) ∨
      ∃ bi bf, b.hora_inicio = some bi ∧ b.hora_fin = some bf ∧
        bi ≤ t ∧ t < bf) :
    (∀ s ∈ obtenerSlotsDisponibles db esp espd fecha, s.hora_inicio ≠ t) ∧
    (b.hora_inicio = none ∧ b.hora_fin = none →
      obtenerSlotsDisponibles db esp espd fecha = []) := by
  constructor
  · intro s hs hst
    have hnb := mem_obtener_not_bloqueado db esp espd fecha s hs
    have hbt : slotBloqueado (bloqueosQuery db esp fecha) t = true := by
      simp only [slotBloqueado, List.any_eq_true]
      refine ⟨b, hb, ?_⟩
      rcases hcov with ⟨h1, h2⟩ | ⟨bi, bf, hbi, hbf, hle, hlt⟩
      · rw [h1, h2]
      · rw [hbi, hbf]
        simp [hle, hlt]
    rw [hst] at hnb
    rw [hnb] at hbt
    cases hbt
  · intro hfull
    rw [List.eq_nil_iff_forall_not_mem]
    intro s hs
    have hnb := mem_obtener_not_bloqueado db esp espd fecha s hs
    have hbt : slotBloqueado (bloqueosQuery db esp fecha) s.hora_inicio = true := by
      simp only [slotBloqueado, List.any_eq_true]
      exact ⟨b, hb, by rw [hfull.1, hfull.2]⟩
    rw [hnb] at hbt
    cases hbt

/-- Witness for C6: an active full-day block over a configured day with an
active window leaves the availability output empty. -/
theorem obtenerSlots_drops_blocked_witness :
    obtenerSlotsDisponibles db6 1 1 0 = [] :=
  (obtenerSlots_drops_blocked db6 1 1 0 480 blFull (by decide)
    (Or.inl ⟨rfl, rfl⟩)).2 ⟨rfl, rfl⟩

/-- C10: a fetched active block with exactly one of its time bounds set is
treated by obtener_slots_disponibles as a full-day block: every candidate
of every window is dropped and the empty list is returned. -/
theorem obtenerSlots_one_sided_block_empty (db : DB) (esp espd fecha : Nat)
    (b : Bloqueo) (hb : b ∈ bloqueosQuery db esp fecha)
    (hone : (b.hora_inicio = none ∧ ∃ x, b.hora_fin = some x) ∨
      ((∃ x, b.hora_inicio = some x) ∧ b.hora_fin = none)) :
    obtenerSlotsDisponibles db esp espd fecha = [] := by
  rw [List.eq_nil_iff_forall_not_mem]
  intro s hs
  have hnb := mem_obtener_not_bloqueado db esp espd fecha s hs
  have hbt : slotBloqueado (bloqueosQuery db esp fecha) s.hora_inicio = true := by
    simp only [slotBloqueado, List.any_eq_true]
    refine ⟨b, hb, ?_⟩
    rcases hone with ⟨h1, x, h2⟩ | ⟨⟨x, h1⟩, h2⟩
    · rw [h1, h2]
    · rw [h1, h2]
  rw [hnb] at hbt
  cases hbt

/-- Witness for C10: a block with only `hora_inicio` 12:00 set empties the
08:00-10:00 availability, though read as a time range it covers none of
the window. -/
theorem obtenerSlots_one_sided_block_empty_witness :
    obtenerSlotsDisponibles db10 1 1 0 = [] :=
  obtenerSlots_one_sided_block_empty db10 1 1 0 blHalf (by decide)
    (Or.inr ⟨⟨720, rfl⟩, rfl⟩)

/-- Closed-form characterization of the slot loop: with positive duration
and fuel at least `limite - cursor`, it emits exactly the arithmetic
progression of the slots that fit. -/
theorem genLoop_eq_map (limite d b : Nat) (hd : 1 ≤ d) :
    ∀ fuel cursor, limite ≤ cursor + fuel →
      genLoop limite d b cursor fuel =
        (List.range (genCount cursor limite d b)).map
          (fun k => (cursor + k * (d + b), cursor + k * (d + b) + d)) := by
  intro fuel
  induction fuel with
  | zero =>
    intro cursor hcur
    have hc : genCount cursor limite d b = 0 := by
      unfold genCount
      rw [if_neg (by omega)]
    simp [genLoop, hc]
  | succ n ih =>
    intro cursor hcur
    by_cases hlt : cursor < limite
    · by_cases hend : cursor + d ≤ limite
      · have hrec := ih (cursor + d + b) (by omega)
        have hcount : genCount cursor limite d b
            = genCount (cursor + d + b) limite d b + 1 := by
          unfold genCount
          rw [if_pos hend]
          by_cases h2 : cursor + d + b + d ≤ limite
          · rw [if_pos h2]
            have hq : (limite - (cursor + d)) / (d + b)
                = (limite - (cursor + d + b + d)) / (d + b) + 1 := by
              rw [Nat.div_eq (limite - (cursor + d)) (d + b),
                if_pos ⟨by omega, by omega⟩]
              have harg : limite - (cursor + d) - (d + b)
                  = limite - (cursor + d + b + d) := by omega
              rw [harg]
            omega
          · rw [if_neg h2]
            have hlt2 : limite - (cursor + d) < d + b := by omega
            rw [Nat.div_eq_of_lt hlt2]
        simp only [genLoop, if_pos hlt, if_pos hend]
        rw [hrec, hcount, List.range_succ_eq_map, List.map_cons, List.map_map]
        congr 1
        · simp
        · apply List.map_congr_left
          intro a _
          have hmul : cursor + (a + 1) * (d + b)
              = cursor + d + b + a * (d + b) := by ring
          simp only [Function.comp_apply, Nat.succ_eq_add_one, hmul]
      · have hrec := ih (cursor + d + b) (by omega)
        have h1 : genCount cursor limite d b = 0 := by
          unfold genCount
          rw [if_neg hend]
        have h2 : genCount (cursor + d + b) limite d b = 0 := by
          unfold genCount
          rw [if_neg (by omega)]
        simp only [genLoop, if_pos hlt, if_neg hend]
        rw [hrec, h1, h2]
        simp
    · have h1 : genCount cursor limite d b = 0 := by
        unfold genCount
        rw [if_neg (by omega)]
      simp [genLoop, if_neg hlt, h1]

/-- `genCount` counts exactly the indices whose slot still ends within the
window limit. -/
theorem genCount_lt_iff (s e d b : Nat) (hd : 1 ≤ d) (k : Nat) :
    k < genCount s e d b ↔ s + k * (d + b) + d ≤ e := by
  unfold genCount
  by_cases hse : s + d ≤ e
  · rw [if_pos hse, Nat.lt_succ_iff,
      Nat.le_div_iff_mul_le (show 0 < d + b by omega)]
    generalize k * (d + b) = m
    omega
  · rw [if_neg hse]
    generalize k * (d + b) = m
    omega

/-- C4: with effective duration d ≥ 1 (the SpecialistConfig invariant) and
effective buffer b, generar_slots returns exactly the ordered list of
slots (s + k(d+b), s + k(d+b) + d) for k = 0, 1, ... while the slot end
stays within the window end; slots that would extend past the end are
dropped. -/
theorem generarSlots_closed_form (db : DB) (h : Horario)
    (hd : 1 ≤ effDuracion db h) :
    generarSlots db h =
      (List.range (genCount h.hora_inicio h.hora_fin (effDuracion db h)
          (effBuffer db h.especialista_id))).map
        (fun k =>
          (h.hora_inicio + k * (effDuracion db h + effBuffer db h.especialista_id),
           h.hora_inicio + k * (effDuracion db h + effBuffer db h.especialista_id)
             + effDuracion db h)) ∧
    ∀ k, k < genCount h.hora_inicio h.hora_fin (effDuracion db h)
        (effBuffer db h.especialista_id) ↔
      h.hora_inicio + k * (effDuracion db h + effBuffer db h.especialista_id)
        + effDuracion db h ≤ h.hora_fin := by
  constructor
  · exact genLoop_eq_map h.hora_fin (effDuracion db h)
      (effBuffer db h.especialista_id) hd (h.hora_fin + 1) h.hora_inicio
      (by omega)
  · intro k
    exact genCount_lt_iff h.hora_inicio h.hora_fin (effDuracion db h)
      (effBuffer db h.especialista_id) hd k

/-- Witness for C4: the window 08:00-10:00 with duration 30 yields the
four slots of the spec scenario with buffer 0 and the three spaced slots
with buffer 10. -/
theorem generarSlots_closed_form_witness :
    generarSlots db4 h4 = [(480, 510), (510, 540), (540, 570), (570, 600)] ∧
    generarSlots db4b h4 = [(480, 510), (520, 550), (560, 590)] :=
  ⟨((generarSlots_closed_form db4 h4 (by decide)).1).trans (by decide),
   ((generarSlots_closed_form db4b h4 (by decide)).1).trans (by decide)⟩

/-- C8: with positive effective duration the slot loop is insensitive to
the fuel bound once it is sufficient, i.e. the while loop of generar_slots
terminates and every evaluation returns the same finite ordered list — no
cursor state survives between calls. -/
theorem generarSlots_fuel_stable (db : DB) (h : Horario)
    (hd : 1 ≤ effDuracion db h) (fuel : Nat) (hfuel : h.hora_fin ≤ fuel) :
    genLoop h.hora_fin (effDuracion db h) (effBuffer db h.especialista_id)
      h.hora_inicio fuel = generarSlots db h := by
  have h1 := genLoop_eq_map h.hora_fin (effDuracion db h)
    (effBuffer db h.especialista_id) hd fuel h.hora_inicio (by omega)
  have h2 := genLoop_eq_map h.hora_fin (effDuracion db h)
    (effBuffer db h.especialista_id) hd (h.hora_fin + 1) h.hora_inicio
    (by omega)
  rw [h1]
  unfold generarSlots
  rw [h2]

/-- Witness for C8: a much larger fuel bound computes the same slot list
for the 08:00-10:00 window. -/
theorem generarSlots_fuel_stable_witness :
    genLoop h4.hora_fin (effDuracion db4 h4) (effBuffer db4 h4.especialista_id)
      h4.hora_inicio 5000 = generarSlots db4 h4 :=
  generarSlots_fuel_stable db4 h4 (by decide) 5000 (by decide)
